import Mathlib

/-!
Verification development for the subtitle timing-shift engine
(`src/utils/srt-shifter.js`, the HTTP shift route in `src/routes/api.js`,
and the desktop main-process copies of the timestamp codec).

The JavaScript source is embedded shallowly:
* timestamps are `Nat` milliseconds, cue times are `Int` milliseconds
  (offsets may be negative);
* the anchored regular expressions of `parseTimestamp` are embedded as
  shape matchers on `List Char` returning the capture groups;
* `String.prototype.trim`, `Number.prototype.toString` (decimal) and
  `String.prototype.padStart` are embedded as `jsTrim`, `Nat.toDigits 10`
  and `padStart`.
-/

/-- JavaScript ASCII whitespace recognised by `String.prototype.trim`
(the source strings only ever carry ASCII). -/
def jsSpace (c : Char) : Bool :=
  c == ' ' || c == '\t' || c == '\n' || c == '\r' || c == '\x0b' || c == '\x0c'

/-- Embedding of `String.prototype.trim`: drop whitespace from both ends. -/
def jsTrim (s : String) : String :=
  ⟨((s.data.dropWhile jsSpace).reverse.dropWhile jsSpace).reverse⟩

/-- `parseInt(ds, 10)` on a non-empty string of decimal digits. -/
def parseIntDigits (cs : List Char) : Nat :=
  cs.foldl (fun acc c => 10 * acc + (c.toNat - 48)) 0

/-- Embedding of `/^(\d{1,2}):(\d{2}):(\d{2})[,.](\d{3})$/` :
on success returns the four capture groups (hours, minutes, seconds, ms). -/
def matchFull : List Char → Option (List Char × List Char × List Char × List Char)
  | [h, c1, m1, m2, c2, s1, s2, sep, x1, x2, x3] =>
    if h.isDigit && c1 == ':' && m1.isDigit && m2.isDigit && c2 == ':' &&
        s1.isDigit && s2.isDigit && (sep == ',' || sep == '.') &&
        x1.isDigit && x2.isDigit && x3.isDigit then
      some ([h], [m1, m2], [s1, s2], [x1, x2, x3])
    else none
  | [h1, h2, c1, m1, m2, c2, s1, s2, sep, x1, x2, x3] =>
    if h1.isDigit && h2.isDigit && c1 == ':' && m1.isDigit && m2.isDigit &&
        c2 == ':' && s1.isDigit && s2.isDigit && (sep == ',' || sep == '.') &&
        x1.isDigit && x2.isDigit && x3.isDigit then
      some ([h1, h2], [m1, m2], [s1, s2], [x1, x2, x3])
    else none
  | _ => none

/-- Embedding of `/^(\d{1,2}):(\d{2}):(\d{2})$/`. -/
def matchHMS : List Char → Option (List Char × List Char × List Char)
  | [h, c1, m1, m2, c2, s1, s2] =>
    if h.isDigit && c1 == ':' && m1.isDigit && m2.isDigit && c2 == ':' &&
        s1.isDigit && s2.isDigit then
      some ([h], [m1, m2], [s1, s2])
    else none
  | [h1, h2, c1, m1, m2, c2, s1, s2] =>
    if h1.isDigit && h2.isDigit && c1 == ':' && m1.isDigit && m2.isDigit &&
        c2 == ':' && s1.isDigit && s2.isDigit then
      some ([h1, h2], [m1, m2], [s1, s2])
    else none
  | _ => none

/-- Embedding of `/^(\d{1,2}):(\d{2})$/`. -/
def matchMS : List Char → Option (List Char × List Char)
  | [m, c1, s1, s2] =>
    if m.isDigit && c1 == ':' && s1.isDigit && s2.isDigit then
      some ([m], [s1, s2])
    else none
  | [m1, m2, c1, s1, s2] =>
    if m1.isDigit && m2.isDigit && c1 == ':' && s1.isDigit && s2.isDigit then
      some ([m1, m2], [s1, s2])
    else none
  | _ => none

/-- Embedding of `/^(\d+)$/`. -/
def matchSeconds (cs : List Char) : Option (List Char) :=
  if cs ≠ [] && cs.all Char.isDigit then some cs else none

/-- Embedding of `parseTimestamp` from `src/utils/srt-shifter.js`
(string argument; the `typeof` guard for non-string input is
`parseTimestampVal` below).  The `!timestamp` guard makes the empty
string return `0`; then the four anchored patterns are tried in order
on the trimmed input, and anything unmatched yields `0`. -/
def parseTimestamp (timestamp : String) : Nat :=
  if timestamp = "" then 0
  else
    let trimmed := jsTrim timestamp
    match matchFull trimmed.data with
    | some (h, m, s, x) =>
      parseIntDigits h * 3600000 + parseIntDigits m * 60000 +
        parseIntDigits s * 1000 + parseIntDigits x
    | none =>
      match matchHMS trimmed.data with
      | some (h, m, s) =>
        parseIntDigits h * 3600000 + parseIntDigits m * 60000 +
          parseIntDigits s * 1000
      | none =>
        match matchMS trimmed.data with
        | some (m, s) => parseIntDigits m * 60000 + parseIntDigits s * 1000
        | none =>
          match matchSeconds trimmed.data with
          | some ds => parseIntDigits ds * 1000
          | none => 0

/-- `parseTimestamp` on an arbitrary JS value: `none` stands for any
non-string argument (`null`, `undefined`, a number, …), which the
`typeof timestamp !== 'string'` guard sends to `0`. -/
def parseTimestampVal : Option String → Nat
  | none => 0
  | some s => parseTimestamp s

namespace Desktop

/-- Embedding of the `parseTimestamp` defined in the desktop (Electron)
main process: it only recognises the `H:MM:SS[,.]mmm` and `H:MM:SS`
patterns and returns `0` for everything else (no `M:SS`, no bare
seconds). -/
def parseTimestamp (timestamp : String) : Nat :=
  if timestamp = "" then 0
  else
    let trimmed := jsTrim timestamp
    match matchFull trimmed.data with
    | some (h, m, s, x) =>
      parseIntDigits h * 3600000 + parseIntDigits m * 60000 +
        parseIntDigits s * 1000 + parseIntDigits x
    | none =>
      match matchHMS trimmed.data with
      | some (h, m, s) =>
        parseIntDigits h * 3600000 + parseIntDigits m * 60000 +
          parseIntDigits s * 1000
      | none => 0

end Desktop

/-- Embedding of `String.prototype.padStart(len, c)`: pad on the left
up to `len`; a string already at least `len` long is unchanged. -/
def padStart (cs : List Char) (len : Nat) (c : Char) : List Char :=
  List.replicate (len - cs.length) c ++ cs

/-- Embedding of `formatTimestamp` from `src/utils/srt-shifter.js`:
`HH:MM:SS,mmm`, each component zero-padded (hours unbounded).
JavaScript `Number.prototype.toString()` on a non-negative integer is
decimal rendering, embedded as `Nat.toDigits 10`. -/
def formatTimestamp (ms : Nat) : String :=
  let hours := ms / 3600000
  let minutes := ms % 3600000 / 60000
  let seconds := ms % 60000 / 1000
  let milliseconds := ms % 1000
  ⟨padStart (Nat.toDigits 10 hours) 2 '0' ++ [':'] ++
    padStart (Nat.toDigits 10 minutes) 2 '0' ++ [':'] ++
    padStart (Nat.toDigits 10 seconds) 2 '0' ++ [','] ++
    padStart (Nat.toDigits 10 milliseconds) 3 '0'⟩

/-- One subtitle cue as built by `parseSRT` / the shift route:
1-based `index`, `start`/`end` in integer milliseconds, verbatim `text`.
(`end` is a Lean keyword, hence the guillemets.) -/
structure Cue where
  index : Nat
  start : Int
  «end» : Int
  text : String
  deriving Repr, DecidableEq

/-- The body of the `cues.map` in `shiftTime` for a cue that is in
range: apply the offset, clamp both times at `0`, then force
`end >= start`. -/
def shiftCue (cue : Cue) (offsetMs : Int) : Cue :=
  let newStart := max 0 (cue.start + offsetMs)
  let newEnd := max 0 (cue.«end» + offsetMs)
  { cue with start := newStart, «end» := max newStart newEnd }

/-- Embedding of `shiftTime` from `src/utils/srt-shifter.js`.
`startTimeMs`/`endTimeMs` are `none` for the JS default `null`; partial
mode is selected exactly when both are non-`null`.  A cue out of range
is returned as an (equal) copy `{...cue}`, which in the value semantics
of the embedding is the cue itself. -/
def shiftTime (cues : List Cue) (offsetMs : Int)
    (startTimeMs endTimeMs : Option Int) : List Cue :=
  let isPartialShift := startTimeMs.isSome && endTimeMs.isSome
  cues.map fun cue =>
    let cueInRange := !isPartialShift ||
      (decide (startTimeMs.getD 0 ≤ cue.start) &&
        decide (cue.start ≤ endTimeMs.getD 0))
    if !cueInRange then cue
    else shiftCue cue offsetMs

/-- Outcome of a shift request at the boundary layer: either an error
payload (HTTP 400 / a thrown `Error`) or the shifted cues. -/
inductive ShiftOutcome where
  | error (message : String)
  | ok (cues : List Cue)
  deriving Repr, DecidableEq

/-- Embedding of the shift dispatch in `POST /api/shift`
(`src/routes/api.js`): in `partial` mode the window bound strings are
parsed with the web `parseTimestamp` and an inverted window is rejected
before `shiftTime` is ever invoked. -/
def handleShiftApi (cues : List Cue) (offsetMs : Int) (mode : String)
    (startTime endTime : String) : ShiftOutcome :=
  if mode = "partial" then
    let startMs := parseTimestamp startTime
    let endMs := parseTimestamp endTime
    if startMs > endMs then
      ShiftOutcome.error "Start time must be before end time"
    else
      ShiftOutcome.ok (shiftTime cues offsetMs (some (startMs : Int)) (some (endMs : Int)))
  else
    ShiftOutcome.ok (shiftTime cues offsetMs none none)

/-- Embedding of the shift dispatch in the desktop
`ipcMain.handle('shift-subtitles')`: same structure, but the window
bounds are parsed with the desktop `parseTimestamp`. -/
def handleShiftIpc (cues : List Cue) (offsetMs : Int) (mode : String)
    (startTime endTime : String) : ShiftOutcome :=
  if mode = "partial" then
    let startMs := Desktop.parseTimestamp startTime
    let endMs := Desktop.parseTimestamp endTime
    if startMs > endMs then
      ShiftOutcome.error "Start time must be before end time"
    else
      ShiftOutcome.ok (shiftTime cues offsetMs (some (startMs : Int)) (some (endMs : Int)))
  else
    ShiftOutcome.ok (shiftTime cues offsetMs none none)

/-- `parseInt` on a one-character digit string: the numeric value of the
digit character. -/
def dv (c : Char) : Nat := c.toNat - 48

/-- `end >= start >= 0`: the invariant a well-formed cue satisfies. -/
def cueOk (c : Cue) : Prop := 0 ≤ c.start ∧ c.start ≤ c.«end»

instance (c : Cue) : Decidable (cueOk c) := by unfold cueOk; infer_instance

/-- Every cue of the collection is well-formed. -/
def cuesOk : List Cue → Prop
  | [] => True
  | c :: l => cueOk c ∧ cuesOk l

instance : ∀ l : List Cue, Decidable (cuesOk l)
  | [] => by unfold cuesOk; infer_instance
  | _ :: l => by unfold cuesOk; have := instDecidableCuesOk l; infer_instance

theorem cuesOk_iff_forall (l : List Cue) : cuesOk l ↔ ∀ c ∈ l, cueOk c := by
  induction l with
  | nil => simp [cuesOk]
  | cons a l ih => simp [cuesOk, ih]

theorem beq_false_of_isDigit_of_not (c d : Char) (h : c.isDigit = true)
    (hd : d.isDigit = false) : (c == d) = false := by
  cases hc : c == d with
  | false => rfl
  | true =>
    rw [beq_iff_eq] at hc
    subst hc
    rw [h] at hd
    cases hd

theorem jsSpace_eq_false_of_isDigit (c : Char) (h : c.isDigit = true) :
    jsSpace c = false := by
  simp only [jsSpace,
    beq_false_of_isDigit_of_not c ' ' h (by decide),
    beq_false_of_isDigit_of_not c '\t' h (by decide),
    beq_false_of_isDigit_of_not c '\n' h (by decide),
    beq_false_of_isDigit_of_not c '\r' h (by decide),
    beq_false_of_isDigit_of_not c '\x0b' h (by decide),
    beq_false_of_isDigit_of_not c '\x0c' h (by decide),
    Bool.or_false]

theorem jsTrim_mk_eq_self (cs : List Char) (h : ∀ c ∈ cs, jsSpace c = false) :
    jsTrim ⟨cs⟩ = ⟨cs⟩ := by
  have h1 : ∀ l : List Char, (∀ c ∈ l, jsSpace c = false) →
      List.dropWhile jsSpace l = l := by
    intro l hl
    cases l with
    | nil => rfl
    | cons a l =>
      rw [List.dropWhile_cons, hl a (List.mem_cons_self a l)]
      simp
  unfold jsTrim
  show String.mk (((cs.dropWhile jsSpace).reverse.dropWhile jsSpace).reverse) = _
  rw [h1 cs h, h1 cs.reverse (by intro c hc; exact h c (List.mem_reverse.mp hc)),
    List.reverse_reverse]

theorem matchFull_eq_none_of_length (cs : List Char)
    (h11 : cs.length ≠ 11) (h12 : cs.length ≠ 12) : matchFull cs = none := by
  unfold matchFull
  split
  · exact absurd rfl h11
  · exact absurd rfl h12
  · rfl

theorem matchHMS_eq_none_of_length (cs : List Char)
    (h7 : cs.length ≠ 7) (h8 : cs.length ≠ 8) : matchHMS cs = none := by
  unfold matchHMS
  split
  · exact absurd rfl h7
  · exact absurd rfl h8
  · rfl

theorem matchMS_eq_none_of_length (cs : List Char)
    (h4 : cs.length ≠ 4) (h5 : cs.length ≠ 5) : matchMS cs = none := by
  unfold matchMS
  split
  · exact absurd rfl h4
  · exact absurd rfl h5
  · rfl

theorem matchFull_eq_none_of_digits (cs : List Char)
    (h : ∀ c ∈ cs, c.isDigit = true) : matchFull cs = none := by
  unfold matchFull
  split
  · rename_i a c1 m1 m2 c2 s1 s2 sep x1 x2 x3
    rw [beq_false_of_isDigit_of_not c1 ':' (h c1 (by simp)) (by decide)]
    simp
  · rename_i a b c1 m1 m2 c2 s1 s2 sep x1 x2 x3
    rw [beq_false_of_isDigit_of_not c1 ':' (h c1 (by simp)) (by decide)]
    simp
  · rfl

theorem matchHMS_eq_none_of_digits (cs : List Char)
    (h : ∀ c ∈ cs, c.isDigit = true) : matchHMS cs = none := by
  unfold matchHMS
  split
  · rename_i a c1 m1 m2 c2 s1 s2
    rw [beq_false_of_isDigit_of_not c1 ':' (h c1 (by simp)) (by decide)]
    simp
  · rename_i a b c1 m1 m2 c2 s1 s2
    rw [beq_false_of_isDigit_of_not c1 ':' (h c1 (by simp)) (by decide)]
    simp
  · rfl

theorem matchMS_eq_none_of_digits (cs : List Char)
    (h : ∀ c ∈ cs, c.isDigit = true) : matchMS cs = none := by
  unfold matchMS
  split
  · rename_i a c1 s1 s2
    rw [beq_false_of_isDigit_of_not c1 ':' (h c1 (by simp)) (by decide)]
    simp
  · rename_i a b c1 s1 s2
    rw [beq_false_of_isDigit_of_not c1 ':' (h c1 (by simp)) (by decide)]
    simp
  · rfl

theorem matchSeconds_eq_some_of_digits (cs : List Char) (hne : cs ≠ [])
    (h : ∀ c ∈ cs, c.isDigit = true) : matchSeconds cs = some cs := by
  unfold matchSeconds
  rw [if_pos]
  simp only [Bool.and_eq_true, List.all_eq_true, decide_eq_true_eq]
  exact ⟨by simpa using hne, h⟩

theorem matchSeconds_eq_none_of_colon (cs : List Char) (h : ':' ∈ cs) :
    matchSeconds cs = none := by
  unfold matchSeconds
  rw [if_neg]
  intro hc
  simp only [Bool.and_eq_true, List.all_eq_true] at hc
  have := hc.2 ':' h
  simp at this

theorem digitChar_isDigit : ∀ n < 10, (Nat.digitChar n).isDigit = true := by
  decide

theorem digitChar_dv : ∀ n < 10, dv (Nat.digitChar n) = n := by decide

theorem padStart_toDigits_two : ∀ n < 100,
    padStart (Nat.toDigits 10 n) 2 '0' =
      [Nat.digitChar (n / 10), Nat.digitChar (n % 10)] := by
  decide

set_option maxRecDepth 4000 in
theorem padStart_toDigits_three : ∀ n < 1000,
    padStart (Nat.toDigits 10 n) 3 '0' =
      [Nat.digitChar (n / 100), Nat.digitChar (n % 100 / 10),
        Nat.digitChar (n % 10)] := by
  decide

theorem length_le_toDigitsCore_length (fuel : Nat) :
    ∀ (n : Nat) (ds : List Char),
      ds.length ≤ (Nat.toDigitsCore 10 fuel n ds).length := by
  induction fuel with
  | zero => intro n ds; simp [Nat.toDigitsCore]
  | succ f ih =>
    intro n ds
    simp only [Nat.toDigitsCore]
    split
    · simp
    · exact le_trans (by simp) (ih (n / 10) (Nat.digitChar (n % 10) :: ds))

theorem toDigitsCore_length_lower (k : Nat) :
    ∀ (fuel n : Nat) (ds : List Char), 10 ^ k ≤ n → k + 1 ≤ fuel →
      k + 1 + ds.length ≤ (Nat.toDigitsCore 10 fuel n ds).length := by
  induction k with
  | zero =>
    intro fuel n ds hn hf
    cases fuel with
    | zero => omega
    | succ f =>
    simp only [Nat.toDigitsCore]
    split
    · simp only [List.length_cons]; omega
    · refine le_trans ?_ (length_le_toDigitsCore_length f (n / 10) (Nat.digitChar (n % 10) :: ds))
      simp only [List.length_cons]
      omega
  | succ k ih =>
    intro fuel n ds hn hf
    cases fuel with
    | zero => omega
    | succ f =>
    simp only [Nat.toDigitsCore]
    have hpow : 0 < 10 ^ k := Nat.pos_pow_of_pos k (by omega)
    have hdiv : 10 ^ k ≤ n / 10 := by
      rw [Nat.le_div_iff_mul_le (by omega)]
      calc 10 ^ k * 10 = 10 ^ (k + 1) := by rw [Nat.pow_succ]
        _ ≤ n := hn
    split
    · omega
    · have := ih f (n / 10) (Nat.digitChar (n % 10) :: ds) hdiv (by omega)
      simp only [List.length_cons] at this
      omega

theorem toDigits_length_ge_three (n : Nat) (h : 100 ≤ n) :
    2 < (Nat.toDigits 10 n).length := by
  have := toDigitsCore_length_lower 2 (n + 1) n [] (by simpa using h) (by omega)
  simpa [Nat.toDigits] using this

theorem toDigitsCore_digits (fuel : Nat) :
    ∀ (n : Nat) (ds : List Char), (∀ c ∈ ds, c.isDigit = true) →
      ∀ c ∈ Nat.toDigitsCore 10 fuel n ds, c.isDigit = true := by
  induction fuel with
  | zero => intro n ds hds; simpa [Nat.toDigitsCore] using hds
  | succ f ih =>
    intro n ds hds
    have hd : (Nat.digitChar (n % 10)).isDigit = true :=
      digitChar_isDigit _ (Nat.mod_lt _ (by omega))
    simp only [Nat.toDigitsCore]
    split
    · intro c hc
      rcases List.mem_cons.mp hc with rfl | hc
      · exact hd
      · exact hds c hc
    · refine ih (n / 10) _ ?_
      intro c hc
      rcases List.mem_cons.mp hc with rfl | hc
      · exact hd
      · exact hds c hc

theorem toDigits_digits (n : Nat) : ∀ c ∈ Nat.toDigits 10 n, c.isDigit = true :=
  toDigitsCore_digits (n + 1) n [] (by simp)

theorem parseIntDigits_one (a : Char) : parseIntDigits [a] = dv a := by
  simp [parseIntDigits, dv]

theorem parseIntDigits_pair (a b : Char) :
    parseIntDigits [a, b] = 10 * dv a + dv b := by
  simp [parseIntDigits, dv]

theorem parseIntDigits_triple (a b c : Char) :
    parseIntDigits [a, b, c] = 100 * dv a + 10 * dv b + dv c := by
  simp [parseIntDigits, dv]
  ring

theorem mk_ne_empty (c : Char) (cs : List Char) : (⟨c :: cs⟩ : String) ≠ "" := by
  intro hEq
  exact absurd (congrArg String.data hEq) (by simp)

theorem parseTimestamp_eq_eval_of_trim (s : String) (c : Char) (cs' : List Char)
    (hdata : (jsTrim s).data = c :: cs') :
    parseTimestamp s =
      (match matchFull (c :: cs') with
      | some (h, m, s, x) =>
        parseIntDigits h * 3600000 + parseIntDigits m * 60000 +
          parseIntDigits s * 1000 + parseIntDigits x
      | none =>
        match matchHMS (c :: cs') with
        | some (h, m, s) =>
          parseIntDigits h * 3600000 + parseIntDigits m * 60000 +
            parseIntDigits s * 1000
        | none =>
          match matchMS (c :: cs') with
          | some (m, s) => parseIntDigits m * 60000 + parseIntDigits s * 1000
          | none =>
            match matchSeconds (c :: cs') with
            | some ds => parseIntDigits ds * 1000
            | none => 0) := by
  unfold parseTimestamp
  split
  · rename_i hs
    rw [hs] at hdata
    have h0 : (jsTrim "").data = [] := by decide
    rw [h0] at hdata
    cases hdata
  · simp only [hdata]

theorem parseTimestamp_full2 (s : String) (h1 h2 m1 m2 s1 s2 sep x1 x2 x3 : Char)
    (hdata : (jsTrim s).data = [h1, h2, ':', m1, m2, ':', s1, s2, sep, x1, x2, x3])
    (hh1 : h1.isDigit = true) (hh2 : h2.isDigit = true)
    (hm1 : m1.isDigit = true) (hm2 : m2.isDigit = true)
    (hs1 : s1.isDigit = true) (hs2 : s2.isDigit = true)
    (hsep : sep = ',' ∨ sep = '.')
    (hx1 : x1.isDigit = true) (hx2 : x2.isDigit = true)
    (hx3 : x3.isDigit = true) :
    parseTimestamp s =
      (10 * dv h1 + dv h2) * 3600000 + (10 * dv m1 + dv m2) * 60000 +
        (10 * dv s1 + dv s2) * 1000 +
        (100 * dv x1 + 10 * dv x2 + dv x3) := by
  rw [parseTimestamp_eq_eval_of_trim s _ _ hdata]
  have hfull : matchFull [h1, h2, ':', m1, m2, ':', s1, s2, sep, x1, x2, x3] =
      some ([h1, h2], [m1, m2], [s1, s2], [x1, x2, x3]) := by
    rcases hsep with rfl | rfl <;>
      simp [matchFull, hh1, hh2, hm1, hm2, hs1, hs2, hx1, hx2, hx3]
  simp only [hfull, parseIntDigits_pair, parseIntDigits_triple]

theorem parseTimestamp_full1 (s : String) (h1 m1 m2 s1 s2 sep x1 x2 x3 : Char)
    (hdata : (jsTrim s).data = [h1, ':', m1, m2, ':', s1, s2, sep, x1, x2, x3])
    (hh1 : h1.isDigit = true)
    (hm1 : m1.isDigit = true) (hm2 : m2.isDigit = true)
    (hs1 : s1.isDigit = true) (hs2 : s2.isDigit = true)
    (hsep : sep = ',' ∨ sep = '.')
    (hx1 : x1.isDigit = true) (hx2 : x2.isDigit = true)
    (hx3 : x3.isDigit = true) :
    parseTimestamp s =
      dv h1 * 3600000 + (10 * dv m1 + dv m2) * 60000 +
        (10 * dv s1 + dv s2) * 1000 +
        (100 * dv x1 + 10 * dv x2 + dv x3) := by
  rw [parseTimestamp_eq_eval_of_trim s _ _ hdata]
  have hfull : matchFull [h1, ':', m1, m2, ':', s1, s2, sep, x1, x2, x3] =
      some ([h1], [m1, m2], [s1, s2], [x1, x2, x3]) := by
    rcases hsep with rfl | rfl <;>
      simp [matchFull, hh1, hm1, hm2, hs1, hs2, hx1, hx2, hx3]
  simp only [hfull, parseIntDigits_one, parseIntDigits_pair,
    parseIntDigits_triple]

theorem parseTimestamp_hms2 (s : String) (h1 h2 m1 m2 s1 s2 : Char)
    (hdata : (jsTrim s).data = [h1, h2, ':', m1, m2, ':', s1, s2])
    (hh1 : h1.isDigit = true) (hh2 : h2.isDigit = true)
    (hm1 : m1.isDigit = true) (hm2 : m2.isDigit = true)
    (hs1 : s1.isDigit = true) (hs2 : s2.isDigit = true) :
    parseTimestamp s =
      (10 * dv h1 + dv h2) * 3600000 + (10 * dv m1 + dv m2) * 60000 +
        (10 * dv s1 + dv s2) * 1000 := by
  rw [parseTimestamp_eq_eval_of_trim s _ _ hdata]
  have h0 : matchFull [h1, h2, ':', m1, m2, ':', s1, s2] = none :=
    matchFull_eq_none_of_length _ (by simp) (by simp)
  have hhms : matchHMS [h1, h2, ':', m1, m2, ':', s1, s2] =
      some ([h1, h2], [m1, m2], [s1, s2]) := by
    simp [matchHMS, hh1, hh2, hm1, hm2, hs1, hs2]
  simp only [h0, hhms, parseIntDigits_pair]

theorem parseTimestamp_hms1 (s : String) (h1 m1 m2 s1 s2 : Char)
    (hdata : (jsTrim s).data = [h1, ':', m1, m2, ':', s1, s2])
    (hh1 : h1.isDigit = true)
    (hm1 : m1.isDigit = true) (hm2 : m2.isDigit = true)
    (hs1 : s1.isDigit = true) (hs2 : s2.isDigit = true) :
    parseTimestamp s =
      dv h1 * 3600000 + (10 * dv m1 + dv m2) * 60000 +
        (10 * dv s1 + dv s2) * 1000 := by
  rw [parseTimestamp_eq_eval_of_trim s _ _ hdata]
  have h0 : matchFull [h1, ':', m1, m2, ':', s1, s2] = none :=
    matchFull_eq_none_of_length _ (by simp) (by simp)
  have hhms : matchHMS [h1, ':', m1, m2, ':', s1, s2] =
      some ([h1], [m1, m2], [s1, s2]) := by
    simp [matchHMS, hh1, hm1, hm2, hs1, hs2]
  simp only [h0, hhms, parseIntDigits_one, parseIntDigits_pair]

theorem parseTimestamp_ms2 (s : String) (m1 m2 s1 s2 : Char)
    (hdata : (jsTrim s).data = [m1, m2, ':', s1, s2])
    (hm1 : m1.isDigit = true) (hm2 : m2.isDigit = true)
    (hs1 : s1.isDigit = true) (hs2 : s2.isDigit = true) :
    parseTimestamp s =
      (10 * dv m1 + dv m2) * 60000 + (10 * dv s1 + dv s2) * 1000 := by
  rw [parseTimestamp_eq_eval_of_trim s _ _ hdata]
  have h0 : matchFull [m1, m2, ':', s1, s2] = none :=
    matchFull_eq_none_of_length _ (by simp) (by simp)
  have h1 : matchHMS [m1, m2, ':', s1, s2] = none :=
    matchHMS_eq_none_of_length _ (by simp) (by simp)
  have hms : matchMS [m1, m2, ':', s1, s2] = some ([m1, m2], [s1, s2]) := by
    simp [matchMS, hm1, hm2, hs1, hs2]
  simp only [h0, h1, hms, parseIntDigits_pair]

theorem parseTimestamp_ms1 (s : String) (m1 s1 s2 : Char)
    (hdata : (jsTrim s).data = [m1, ':', s1, s2])
    (hm1 : m1.isDigit = true)
    (hs1 : s1.isDigit = true) (hs2 : s2.isDigit = true) :
    parseTimestamp s =
      dv m1 * 60000 + (10 * dv s1 + dv s2) * 1000 := by
  rw [parseTimestamp_eq_eval_of_trim s _ _ hdata]
  have h0 : matchFull [m1, ':', s1, s2] = none :=
    matchFull_eq_none_of_length _ (by simp) (by simp)
  have h1 : matchHMS [m1, ':', s1, s2] = none :=
    matchHMS_eq_none_of_length _ (by simp) (by simp)
  have hms : matchMS [m1, ':', s1, s2] = some ([m1], [s1, s2]) := by
    simp [matchMS, hm1, hs1, hs2]
  simp only [h0, h1, hms, parseIntDigits_one, parseIntDigits_pair]

theorem parseTimestamp_secs (s : String) (cs : List Char)
    (hdata : (jsTrim s).data = cs) (hne : cs ≠ [])
    (hd : ∀ c ∈ cs, c.isDigit = true) :
    parseTimestamp s = parseIntDigits cs * 1000 := by
  obtain ⟨c, cs', rfl⟩ := List.exists_cons_of_ne_nil hne
  rw [parseTimestamp_eq_eval_of_trim s _ _ hdata]
  simp only [matchFull_eq_none_of_digits _ hd, matchHMS_eq_none_of_digits _ hd,
    matchMS_eq_none_of_digits _ hd,
    matchSeconds_eq_some_of_digits _ hne hd]

theorem parseTimestamp_long_eq_zero (s : String) (c : Char) (cs : List Char)
    (hdata : (jsTrim s).data = c :: cs)
    (hlen : 13 ≤ (c :: cs).length) (hcolon : ':' ∈ c :: cs) :
    parseTimestamp s = 0 := by
  have hlc : 13 ≤ cs.length + 1 := by simpa using hlen
  have h1 : matchFull (c :: cs) = none :=
    matchFull_eq_none_of_length _ (by simp only [List.length_cons]; omega)
      (by simp only [List.length_cons]; omega)
  have h2 : matchHMS (c :: cs) = none :=
    matchHMS_eq_none_of_length _ (by simp only [List.length_cons]; omega)
      (by simp only [List.length_cons]; omega)
  have h3 : matchMS (c :: cs) = none :=
    matchMS_eq_none_of_length _ (by simp only [List.length_cons]; omega)
      (by simp only [List.length_cons]; omega)
  have h4 : matchSeconds (c :: cs) = none :=
    matchSeconds_eq_none_of_colon _ hcolon
  rw [parseTimestamp_eq_eval_of_trim s _ _ hdata]
  simp only [h1, h2, h3, h4]

theorem shiftTime_full (cues : List Cue) (offsetMs : Int) :
    shiftTime cues offsetMs none none = cues.map (fun c => shiftCue c offsetMs) := rfl

theorem shiftTime_windowed (cues : List Cue) (offsetMs ws we : Int) :
    shiftTime cues offsetMs (some ws) (some we) =
      cues.map (fun c =>
        if ws ≤ c.start ∧ c.start ≤ we then shiftCue c offsetMs else c) := by
  unfold shiftTime
  refine List.map_congr_left ?_
  intro c _
  by_cases h1 : ws ≤ c.start <;> by_cases h2 : c.start ≤ we <;>
    simp [h1, h2]

/-- C1 (counterexample): as stated over every cue collection the claim
fails: in partial mode a cue outside the window is passed through
unchanged, so an input cue that already violates `start >= 0` reappears
in the output and the output does not satisfy the invariant. -/
theorem claim1_counterexample :
    ¬ ∀ c, c ∈ shiftTime [⟨1, -1, -1, "x"⟩] 1 (some 0) (some 10) →
      0 ≤ c.start ∧ c.start ≤ c.«end» := by decide

/-- C1 (amended): for every cue collection whose cues already satisfy
`start >= 0` and `end >= start`, every integer offset and either mode,
every output cue of `shiftTime` satisfies `start >= 0` and
`end >= start`; every shifted cue is exactly
`newStart = max(0, start + offsetMs)`,
`newEnd = max(newStart, max(0, end + offsetMs))`; and the cue
`{start: 5000, end: 7000}` shifted by `-8000` yields
`{start: 0, end: 0}`. -/
theorem claim1_shift_clamp_invariant (cues : List Cue) (offsetMs : Int)
    (stm etm : Option Int) (h : cuesOk cues) :
    cuesOk (shiftTime cues offsetMs stm etm) ∧
    (∀ (c : Cue) (o : Int), shiftTime [c] o none none =
      [{ c with start := max 0 (c.start + o),
                «end» := max (max 0 (c.start + o)) (max 0 (c.«end» + o)) }]) ∧
    shiftTime [⟨1, 5000, 7000, "Hello"⟩] (-8000) none none =
      [⟨1, 0, 0, "Hello"⟩] := by
  refine ⟨?_, fun c o => rfl, by decide⟩
  rw [cuesOk_iff_forall] at h ⊢
  intro c' hc'
  unfold shiftTime at hc'
  simp only [List.mem_map] at hc'
  obtain ⟨c, hc, rfl⟩ := hc'
  split
  · exact h c hc
  · unfold shiftCue cueOk
    dsimp only
    constructor
    · exact le_max_left 0 _
    · exact le_max_left _ _

/-- C1 (witness): the amended theorem applied to the one-cue collection
of concrete scenario A. -/
theorem claim1_witness :
    cuesOk [(⟨1, 5000, 7000, "Hello"⟩ : Cue)] ∧
    cuesOk (shiftTime [⟨1, 5000, 7000, "Hello"⟩] (-8000) none none) :=
  ⟨by decide,
    (claim1_shift_clamp_invariant [⟨1, 5000, 7000, "Hello"⟩] (-8000)
      none none (by decide)).1⟩

/-- C2: in partial mode a cue is shifted iff its pre-shift `start` lies
in `[windowStart, windowEnd]` inclusive (cues outside pass through with
index, start, end and text unchanged), an inverted window shifts zero
cues, and concrete scenario B holds. -/
theorem claim2_partial_selectivity (cues : List Cue) (offsetMs ws we : Int) :
    shiftTime cues offsetMs (some ws) (some we) =
      cues.map (fun c =>
        if ws ≤ c.start ∧ c.start ≤ we then shiftCue c offsetMs else c) ∧
    (we < ws → shiftTime cues offsetMs (some ws) (some we) = cues) ∧
    shiftTime [⟨1, 1000, 2000, "a"⟩, ⟨2, 20000, 21000, "b"⟩,
        ⟨3, 50000, 51000, "c"⟩] 2000 (some 15000) (some 45000) =
      [⟨1, 1000, 2000, "a"⟩, ⟨2, 22000, 23000, "b"⟩,
        ⟨3, 50000, 51000, "c"⟩] := by
  refine ⟨shiftTime_windowed cues offsetMs ws we, ?_, by decide⟩
  intro hw
  rw [shiftTime_windowed]
  have hid : ∀ c ∈ cues,
      (if ws ≤ c.start ∧ c.start ≤ we then shiftCue c offsetMs else c) = c := by
    intro c _
    rw [if_neg]
    rintro ⟨ha, hb⟩
    omega
  rw [List.map_congr_left hid]
  exact List.map_id' cues

/-- C2 (witness): an inverted window leaves a concrete collection
untouched. -/
theorem claim2_witness :
    shiftTime [⟨1, 1000, 2000, "a"⟩] 2000 (some 46000) (some 45000) =
      [⟨1, 1000, 2000, "a"⟩] :=
  (claim2_partial_selectivity [⟨1, 1000, 2000, "a"⟩] 2000 46000 45000).2.1
    (by decide)

/-- C4 (counterexample): with `offsetMs = -1 ≠ 0` in full mode, a cue
already at `start = end = 0` is clamped back to itself, so its
start/end values are left unchanged, contradicting the claim. -/
theorem claim4_counterexample :
    (-1 : Int) ≠ 0 ∧
    shiftTime [⟨1, 0, 0, "x"⟩] (-1) none none = [⟨1, 0, 0, "x"⟩] := by
  decide

/-- C4 (amended): in full mode the output length equals the input
length and the shift formula is applied to every cue; a cue's `start`
is guaranteed to actually change whenever `offsetMs ≠ 0` and no
clamping occurs (`start + offsetMs >= 0`) — a clamped cue can come back
unchanged. -/
theorem claim4_full_mode (cues : List Cue) (offsetMs : Int) :
    (shiftTime cues offsetMs none none).length = cues.length ∧
    shiftTime cues offsetMs none none =
      cues.map (fun c => shiftCue c offsetMs) ∧
    (∀ c : Cue, offsetMs ≠ 0 → 0 ≤ c.start + offsetMs →
      (shiftCue c offsetMs).start ≠ c.start) := by
  refine ⟨?_, shiftTime_full cues offsetMs, ?_⟩
  · rw [shiftTime_full]
    exact List.length_map cues _
  · intro c h0 hcl
    unfold shiftCue
    dsimp only
    omega

/-- C4 (witness): the amended theorem at a concrete unclamped cue. -/
theorem claim4_witness :
    (shiftTime [(⟨1, 1000, 2000, "a"⟩ : Cue)] 5 none none).length = 1 ∧
    (shiftCue ⟨1, 1000, 2000, "a"⟩ 5).start ≠ (1000 : Int) :=
  ⟨(claim4_full_mode [⟨1, 1000, 2000, "a"⟩] 5).1,
    (claim4_full_mode [⟨1, 1000, 2000, "a"⟩] 5).2.2 ⟨1, 1000, 2000, "a"⟩
      (by decide) (by decide)⟩

/-- C8: a full-mode shift by `+k` followed by one by `-k` restores
every cue, provided no clamping occurred in either pass (each cue has
`start >= 0`, `end >= start` and `start + k >= 0`, which makes every
`max` vacuous). -/
theorem claim8_inverse (cues : List Cue) (k : Int)
    (h : ∀ c ∈ cues, 0 ≤ c.start ∧ c.start ≤ c.«end» ∧ 0 ≤ c.start + k) :
    shiftTime (shiftTime cues k none none) (-k) none none = cues := by
  rw [shiftTime_full, shiftTime_full, List.map_map]
  have hid : ∀ c ∈ cues,
      ((fun c => shiftCue c (-k)) ∘ fun c => shiftCue c k) c = c := by
    intro c hc
    obtain ⟨h1, h2, h3⟩ := h c hc
    obtain ⟨i, s, e, t⟩ := c
    simp only [Function.comp, shiftCue, Cue.mk.injEq]
    simp only [cueOk] at h1 h2 h3
    refine ⟨trivial, ?_, ?_, trivial⟩ <;> dsimp only at h1 h2 h3 ⊢ <;> omega
  rw [List.map_congr_left hid]
  exact List.map_id' cues

/-- C8 (witness): round trip on a concrete collection. -/
theorem claim8_witness :
    shiftTime (shiftTime [⟨1, 1000, 2000, "a"⟩] 500 none none) (-500)
      none none = [⟨1, 1000, 2000, "a"⟩] :=
  claim8_inverse [⟨1, 1000, 2000, "a"⟩] 500 (by decide)

/-- C9: `shiftTime` preserves the length and order of the collection
and every cue's `index` and `text`, in every mode and for every
offset. -/
theorem claim9_frame (cues : List Cue) (offsetMs : Int)
    (stm etm : Option Int) :
    (shiftTime cues offsetMs stm etm).length = cues.length ∧
    (shiftTime cues offsetMs stm etm).map Cue.index = cues.map Cue.index ∧
    (shiftTime cues offsetMs stm etm).map Cue.text = cues.map Cue.text := by
  refine ⟨by unfold shiftTime; exact List.length_map _ _, ?_, ?_⟩ <;>
  · unfold shiftTime
    rw [List.map_map]
    refine List.map_congr_left ?_
    intro c _
    dsimp only [Function.comp]
    split <;> rfl

/-- C5: both boundary handlers (the HTTP shift route and the desktop
IPC handler) reject a partial-mode request whose parsed window start
exceeds its parsed window end with the invalid-window error, before any
shifting occurs. -/
theorem claim5_invalid_window (cues : List Cue) (offsetMs : Int)
    (st et : String) :
    (parseTimestamp et < parseTimestamp st →
      handleShiftApi cues offsetMs "partial" st et =
        ShiftOutcome.error "Start time must be before end time") ∧
    (Desktop.parseTimestamp et < Desktop.parseTimestamp st →
      handleShiftIpc cues offsetMs "partial" st et =
        ShiftOutcome.error "Start time must be before end time") := by
  constructor <;> intro h <;>
    simp [handleShiftApi, handleShiftIpc, h]

/-- C5 (witness): a concrete inverted window is rejected on both
paths. -/
theorem claim5_witness :
    handleShiftApi [] 0 "partial" "00:00:10" "00:00:05" =
      ShiftOutcome.error "Start time must be before end time" ∧
    handleShiftIpc [] 0 "partial" "00:00:10" "00:00:05" =
      ShiftOutcome.error "Start time must be before end time" :=
  ⟨(claim5_invalid_window [] 0 "00:00:10" "00:00:05").1 (by decide),
    (claim5_invalid_window [] 0 "00:00:10" "00:00:05").2 (by decide)⟩

/-- C6: the timestamp parser never fails hard: non-string input, the
empty string, and any string matching none of the four patterns all
yield `0`; in particular `parseTimestamp "not a time" = 0`. -/
theorem claim6_soft_failure :
    parseTimestampVal none = 0 ∧
    parseTimestamp "" = 0 ∧
    parseTimestamp "not a time" = 0 ∧
    (∀ s : String, matchFull (jsTrim s).data = none →
      matchHMS (jsTrim s).data = none → matchMS (jsTrim s).data = none →
      matchSeconds (jsTrim s).data = none → parseTimestamp s = 0) := by
  refine ⟨rfl, by decide, by decide, ?_⟩
  intro s h1 h2 h3 h4
  unfold parseTimestamp
  split
  · rfl
  · simp only [h1, h2, h3, h4]

/-- C6 (witness): the non-matching case at a concrete garbage input. -/
theorem claim6_witness :
    matchFull (jsTrim "garbage!").data = none ∧
    matchHMS (jsTrim "garbage!").data = none ∧
    matchMS (jsTrim "garbage!").data = none ∧
    matchSeconds (jsTrim "garbage!").data = none ∧
    parseTimestamp "garbage!" = 0 :=
  ⟨by decide, by decide, by decide, by decide,
    claim6_soft_failure.2.2.2 "garbage!" (by decide) (by decide) (by decide)
      (by decide)⟩

/-- C3 (counterexample): the two `parseTimestamp` functions do not
agree on every input: the desktop copy lacks the `M:SS` and
bare-seconds patterns, so on `"5"` the web parser yields `5000` and
the desktop parser `0`. -/
theorem claim3_counterexample :
    parseTimestamp "5" = 5000 ∧ Desktop.parseTimestamp "5" = 0 ∧
    parseTimestamp "5" ≠ Desktop.parseTimestamp "5" := by decide

/-- C3 (amended): the two parsers agree on every input whose trimmed
text matches neither the `M:SS` nor the bare-seconds pattern (in
particular on all `H:MM:SS[,.mmm]` inputs and on all garbage); on the
two extra patterns the desktop parser falls through to `0`. -/
theorem claim3_parsers_agreement (t : String) :
    (matchMS (jsTrim t).data = none → matchSeconds (jsTrim t).data = none →
      Desktop.parseTimestamp t = parseTimestamp t) ∧
    (matchFull (jsTrim t).data = none → matchHMS (jsTrim t).data = none →
      Desktop.parseTimestamp t = 0) := by
  constructor
  · intro h3 h4
    unfold parseTimestamp Desktop.parseTimestamp
    split
    · rfl
    · simp only [h3, h4]
  · intro h1 h2
    unfold Desktop.parseTimestamp
    split
    · rfl
    · simp only [h1, h2]

/-- C3 (witness): agreement on a concrete `H:MM:SS` input and the
desktop fall-through on a concrete `M:SS` input. -/
theorem claim3_witness :
    Desktop.parseTimestamp "01:02:03" = parseTimestamp "01:02:03" ∧
    Desktop.parseTimestamp "0:45" = 0 :=
  ⟨(claim3_parsers_agreement "01:02:03").1 (by decide) (by decide),
    (claim3_parsers_agreement "0:45").2 (by decide) (by decide)⟩

/-- C7: each of the four recognised patterns parses to the stated
formula (hours 1–2 digits, minutes/seconds exactly 2 digits,
milliseconds exactly 3 digits, comma or period separator; `M:SS` with
1–2 digit minutes; bare digit strings as whole seconds), and concrete
scenario C holds in both directions. -/
theorem claim7_pattern_formulas :
    (∀ (s : String) (h1 h2 m1 m2 s1 s2 sep x1 x2 x3 : Char),
      (jsTrim s).data = [h1, h2, ':', m1, m2, ':', s1, s2, sep, x1, x2, x3] →
      h1.isDigit = true → h2.isDigit = true → m1.isDigit = true →
      m2.isDigit = true → s1.isDigit = true → s2.isDigit = true →
      (sep = ',' ∨ sep = '.') → x1.isDigit = true → x2.isDigit = true →
      x3.isDigit = true →
      parseTimestamp s =
        (10 * dv h1 + dv h2) * 3600000 + (10 * dv m1 + dv m2) * 60000 +
          (10 * dv s1 + dv s2) * 1000 +
          (100 * dv x1 + 10 * dv x2 + dv x3)) ∧
    (∀ (s : String) (h1 m1 m2 s1 s2 sep x1 x2 x3 : Char),
      (jsTrim s).data = [h1, ':', m1, m2, ':', s1, s2, sep, x1, x2, x3] →
      h1.isDigit = true → m1.isDigit = true → m2.isDigit = true →
      s1.isDigit = true → s2.isDigit = true → (sep = ',' ∨ sep = '.') →
      x1.isDigit = true → x2.isDigit = true → x3.isDigit = true →
      parseTimestamp s =
        dv h1 * 3600000 + (10 * dv m1 + dv m2) * 60000 +
          (10 * dv s1 + dv s2) * 1000 +
          (100 * dv x1 + 10 * dv x2 + dv x3)) ∧
    (∀ (s : String) (h1 h2 m1 m2 s1 s2 : Char),
      (jsTrim s).data = [h1, h2, ':', m1, m2, ':', s1, s2] →
      h1.isDigit = true → h2.isDigit = true → m1.isDigit = true →
      m2.isDigit = true → s1.isDigit = true → s2.isDigit = true →
      parseTimestamp s =
        (10 * dv h1 + dv h2) * 3600000 + (10 * dv m1 + dv m2) * 60000 +
          (10 * dv s1 + dv s2) * 1000) ∧
    (∀ (s : String) (h1 m1 m2 s1 s2 : Char),
      (jsTrim s).data = [h1, ':', m1, m2, ':', s1, s2] →
      h1.isDigit = true → m1.isDigit = true → m2.isDigit = true →
      s1.isDigit = true → s2.isDigit = true →
      parseTimestamp s =
        dv h1 * 3600000 + (10 * dv m1 + dv m2) * 60000 +
          (10 * dv s1 + dv s2) * 1000) ∧
    (∀ (s : String) (m1 m2 s1 s2 : Char),
      (jsTrim s).data = [m1, m2, ':', s1, s2] →
      m1.isDigit = true → m2.isDigit = true → s1.isDigit = true →
      s2.isDigit = true →
      parseTimestamp s =
        (10 * dv m1 + dv m2) * 60000 + (10 * dv s1 + dv s2) * 1000) ∧
    (∀ (s : String) (m1 s1 s2 : Char),
      (jsTrim s).data = [m1, ':', s1, s2] →
      m1.isDigit = true → s1.isDigit = true → s2.isDigit = true →
      parseTimestamp s =
        dv m1 * 60000 + (10 * dv s1 + dv s2) * 1000) ∧
    (∀ (s : String) (cs : List Char), (jsTrim s).data = cs → cs ≠ [] →
      (∀ c ∈ cs, c.isDigit = true) →
      parseTimestamp s = parseIntDigits cs * 1000) ∧
    parseTimestamp "01:02:03,456" = 3723456 ∧
    formatTimestamp 3723456 = "01:02:03,456" :=
  ⟨parseTimestamp_full2, parseTimestamp_full1, parseTimestamp_hms2,
    parseTimestamp_hms1, parseTimestamp_ms2, parseTimestamp_ms1,
    parseTimestamp_secs, by decide, by decide⟩

/-- C7 (witness): the `M:SS` formula applied at `"  59:59 "`
(whitespace trimmed). -/
theorem claim7_witness : parseTimestamp "  59:59 " = 3599000 := by
  have h := claim7_pattern_formulas.2.2.2.2.1 "  59:59 " '5' '9' '5' '9'
    (by decide) (by decide) (by decide) (by decide) (by decide)
  exact h.trans (by decide)

/-- C10: the codec round-trips exactly below 100 hours
(`parseTimestamp (formatTimestamp ms) = ms` for `ms < 360000000`);
at or above 100 hours the formatted hours field has more than two
digits, no parse pattern matches, and the round trip collapses to
`0`. -/
theorem claim10_roundtrip (ms : Nat) :
    (ms < 360000000 → parseTimestamp (formatTimestamp ms) = ms) ∧
    (360000000 ≤ ms → 2 < (Nat.toDigits 10 (ms / 3600000)).length ∧
      parseTimestamp (formatTimestamp ms) = 0) := by
  constructor
  · intro h
    have hh : ms / 3600000 < 100 := by omega
    have hm : ms % 3600000 / 60000 < 100 := by omega
    have hs : ms % 60000 / 1000 < 100 := by omega
    have hx : ms % 1000 < 1000 := by omega
    have hfmt : formatTimestamp ms =
        ⟨[Nat.digitChar (ms / 3600000 / 10), Nat.digitChar (ms / 3600000 % 10),
          ':', Nat.digitChar (ms % 3600000 / 60000 / 10),
          Nat.digitChar (ms % 3600000 / 60000 % 10), ':',
          Nat.digitChar (ms % 60000 / 1000 / 10),
          Nat.digitChar (ms % 60000 / 1000 % 10), ',',
          Nat.digitChar (ms % 1000 / 100),
          Nat.digitChar (ms % 1000 % 100 / 10),
          Nat.digitChar (ms % 1000 % 10)]⟩ := by
      simp only [formatTimestamp]
      rw [padStart_toDigits_two _ hh, padStart_toDigits_two _ hm,
        padStart_toDigits_two _ hs, padStart_toDigits_three _ hx]
      rfl
    have hsp : ∀ a ∈ [Nat.digitChar (ms / 3600000 / 10),
        Nat.digitChar (ms / 3600000 % 10), ':',
        Nat.digitChar (ms % 3600000 / 60000 / 10),
        Nat.digitChar (ms % 3600000 / 60000 % 10), ':',
        Nat.digitChar (ms % 60000 / 1000 / 10),
        Nat.digitChar (ms % 60000 / 1000 % 10), ',',
        Nat.digitChar (ms % 1000 / 100),
        Nat.digitChar (ms % 1000 % 100 / 10),
        Nat.digitChar (ms % 1000 % 10)], jsSpace a = false := by
      intro a ha
      simp only [List.mem_cons, List.not_mem_nil, or_false] at ha
      rcases ha with rfl | rfl | rfl | rfl | rfl | rfl | rfl | rfl | rfl | rfl | rfl | rfl
      exacts [jsSpace_eq_false_of_isDigit _ (digitChar_isDigit _ (by omega)),
        jsSpace_eq_false_of_isDigit _ (digitChar_isDigit _ (by omega)),
        by decide,
        jsSpace_eq_false_of_isDigit _ (digitChar_isDigit _ (by omega)),
        jsSpace_eq_false_of_isDigit _ (digitChar_isDigit _ (by omega)),
        by decide,
        jsSpace_eq_false_of_isDigit _ (digitChar_isDigit _ (by omega)),
        jsSpace_eq_false_of_isDigit _ (digitChar_isDigit _ (by omega)),
        by decide,
        jsSpace_eq_false_of_isDigit _ (digitChar_isDigit _ (by omega)),
        jsSpace_eq_false_of_isDigit _ (digitChar_isDigit _ (by omega)),
        jsSpace_eq_false_of_isDigit _ (digitChar_isDigit _ (by omega))]
    have hdata : (jsTrim (formatTimestamp ms)).data =
        [Nat.digitChar (ms / 3600000 / 10), Nat.digitChar (ms / 3600000 % 10),
          ':', Nat.digitChar (ms % 3600000 / 60000 / 10),
          Nat.digitChar (ms % 3600000 / 60000 % 10), ':',
          Nat.digitChar (ms % 60000 / 1000 / 10),
          Nat.digitChar (ms % 60000 / 1000 % 10), ',',
          Nat.digitChar (ms % 1000 / 100),
          Nat.digitChar (ms % 1000 % 100 / 10),
          Nat.digitChar (ms % 1000 % 10)] := by
      rw [hfmt, jsTrim_mk_eq_self _ hsp]
    rw [parseTimestamp_full2 _ _ _ _ _ _ _ _ _ _ _ hdata
        (digitChar_isDigit _ (by omega)) (digitChar_isDigit _ (by omega))
        (digitChar_isDigit _ (by omega)) (digitChar_isDigit _ (by omega))
        (digitChar_isDigit _ (by omega)) (digitChar_isDigit _ (by omega))
        (Or.inl rfl)
        (digitChar_isDigit _ (by omega)) (digitChar_isDigit _ (by omega))
        (digitChar_isDigit _ (by omega)),
      digitChar_dv _ (by omega), digitChar_dv _ (by omega),
      digitChar_dv _ (by omega), digitChar_dv _ (by omega),
      digitChar_dv _ (by omega), digitChar_dv _ (by omega),
      digitChar_dv _ (by omega), digitChar_dv _ (by omega),
      digitChar_dv _ (by omega)]
    omega
  · intro h
    have hh : 100 ≤ ms / 3600000 := by omega
    have hlen := toDigits_length_ge_three _ hh
    refine ⟨hlen, ?_⟩
    have hm : ms % 3600000 / 60000 < 100 := by omega
    have hs : ms % 60000 / 1000 < 100 := by omega
    have hx : ms % 1000 < 1000 := by omega
    have hpadh : padStart (Nat.toDigits 10 (ms / 3600000)) 2 '0' =
        Nat.toDigits 10 (ms / 3600000) := by
      unfold padStart
      rw [Nat.sub_eq_zero_of_le (by omega)]
      rfl
    have hfmt : formatTimestamp ms =
        ⟨Nat.toDigits 10 (ms / 3600000) ++
          (':' :: Nat.digitChar (ms % 3600000 / 60000 / 10) ::
            Nat.digitChar (ms % 3600000 / 60000 % 10) :: ':' ::
            Nat.digitChar (ms % 60000 / 1000 / 10) ::
            Nat.digitChar (ms % 60000 / 1000 % 10) :: ',' ::
            Nat.digitChar (ms % 1000 / 100) ::
            Nat.digitChar (ms % 1000 % 100 / 10) ::
            [Nat.digitChar (ms % 1000 % 10)])⟩ := by
      simp only [formatTimestamp]
      rw [hpadh, padStart_toDigits_two _ hm, padStart_toDigits_two _ hs,
        padStart_toDigits_three _ hx]
      exact congrArg String.mk (by simp)
    obtain ⟨c, cs', hcons⟩ :=
      List.exists_cons_of_ne_nil
        (show Nat.toDigits 10 (ms / 3600000) ≠ [] by
          intro hnil
          rw [hnil] at hlen
          simp at hlen)
    have hdig : ∀ a ∈ c :: cs', a.isDigit = true := by
      rw [← hcons]
      exact toDigits_digits _
    have hsp : ∀ a ∈ c :: (cs' ++
        (':' :: Nat.digitChar (ms % 3600000 / 60000 / 10) ::
          Nat.digitChar (ms % 3600000 / 60000 % 10) :: ':' ::
          Nat.digitChar (ms % 60000 / 1000 / 10) ::
          Nat.digitChar (ms % 60000 / 1000 % 10) :: ',' ::
          Nat.digitChar (ms % 1000 / 100) ::
          Nat.digitChar (ms % 1000 % 100 / 10) ::
          [Nat.digitChar (ms % 1000 % 10)])), jsSpace a = false := by
      intro a ha
      rw [← List.cons_append] at ha
      rcases List.mem_append.mp ha with hL | hR
      · exact jsSpace_eq_false_of_isDigit a (hdig a hL)
      · simp only [List.mem_cons, List.not_mem_nil, or_false] at hR
        rcases hR with rfl | rfl | rfl | rfl | rfl | rfl | rfl | rfl | rfl | rfl
        exacts [by decide,
          jsSpace_eq_false_of_isDigit _ (digitChar_isDigit _ (by omega)),
          jsSpace_eq_false_of_isDigit _ (digitChar_isDigit _ (by omega)),
          by decide,
          jsSpace_eq_false_of_isDigit _ (digitChar_isDigit _ (by omega)),
          jsSpace_eq_false_of_isDigit _ (digitChar_isDigit _ (by omega)),
          by decide,
          jsSpace_eq_false_of_isDigit _ (digitChar_isDigit _ (by omega)),
          jsSpace_eq_false_of_isDigit _ (digitChar_isDigit _ (by omega)),
          jsSpace_eq_false_of_isDigit _ (digitChar_isDigit _ (by omega))]
    have hL13 : 13 ≤ (c :: (cs' ++
        (':' :: Nat.digitChar (ms % 3600000 / 60000 / 10) ::
          Nat.digitChar (ms % 3600000 / 60000 % 10) :: ':' ::
          Nat.digitChar (ms % 60000 / 1000 / 10) ::
          Nat.digitChar (ms % 60000 / 1000 % 10) :: ',' ::
          Nat.digitChar (ms % 1000 / 100) ::
          Nat.digitChar (ms % 1000 % 100 / 10) ::
          [Nat.digitChar (ms % 1000 % 10)]))).length := by
      rw [hcons] at hlen
      simp only [List.length_cons, List.length_append] at hlen ⊢
      omega
    have hcolon : ':' ∈ c :: (cs' ++
        (':' :: Nat.digitChar (ms % 3600000 / 60000 / 10) ::
          Nat.digitChar (ms % 3600000 / 60000 % 10) :: ':' ::
          Nat.digitChar (ms % 60000 / 1000 / 10) ::
          Nat.digitChar (ms % 60000 / 1000 % 10) :: ',' ::
          Nat.digitChar (ms % 1000 / 100) ::
          Nat.digitChar (ms % 1000 % 100 / 10) ::
          [Nat.digitChar (ms % 1000 % 10)])) := by
      simp
    have hdata : (jsTrim (formatTimestamp ms)).data = c :: (cs' ++
        (':' :: Nat.digitChar (ms % 3600000 / 60000 / 10) ::
          Nat.digitChar (ms % 3600000 / 60000 % 10) :: ':' ::
          Nat.digitChar (ms % 60000 / 1000 / 10) ::
          Nat.digitChar (ms % 60000 / 1000 % 10) :: ',' ::
          Nat.digitChar (ms % 1000 / 100) ::
          Nat.digitChar (ms % 1000 % 100 / 10) ::
          [Nat.digitChar (ms % 1000 % 10)])) := by
      rw [hfmt, hcons, List.cons_append, jsTrim_mk_eq_self _ hsp]
    exact parseTimestamp_long_eq_zero _ _ _ hdata hL13 hcolon

/-- C10 (witness): both branches at concrete inputs. -/
theorem claim10_witness :
    parseTimestamp (formatTimestamp 3723456) = 3723456 ∧
    parseTimestamp (formatTimestamp 360000000) = 0 :=
  ⟨(claim10_roundtrip 3723456).1 (by decide),
    ((claim10_roundtrip 360000000).2 (by decide)).2⟩

